import Mathlib

/-!
Shallow embedding of `src/printer.rs` from zethra/wasp.

The file's `Printer` implementation is a draft: a byte receiver
(`recive_serial`) that accumulates serial bytes into a 256-byte
`serial_buffer`, decodes a line on the `LINE_ENDING` byte through the
external gcode tokenizer/parser, and pushes each successfully parsed
`Line` into the 32-slot `gcode_buffer`; `update` only calls
`recive_serial`.  Buffers are fixed Rust arrays, so every index is
bounds-checked: an out-of-range index is a panic, modelled here as
`Except.error Panic.indexOutOfBounds`.  Cursors are `u8` in the source
and are modelled as `Nat`; the array-bound checks dominate every place
where `u8` wrap-around could otherwise matter.
-/

set_option maxRecDepth 4000

/-- Modelled from the spec: the external gcode crate's parsed-command type
`Line` (the tokenizer/parser collaborator is not under `src/`).  Variants
follow the spec's Command data model; numeric payloads are modelled as
integers. -/
inductive Line where
  | move (x y z : Option Int)
  | setTemperature (target : Int)
  | fanSpeed (level : Int)
  | emergencyStop
  | statusQuery
  | unknown
deriving DecidableEq

/-- Modelled from the spec: the external tokenizer's token type is opaque to
this core; tokens are represented by naturals. -/
abbrev Token := Nat

/-- Modelled from the spec: the external collaborators used by
`recive_serial` — `core::str::from_utf8` (UTF-8 validation), the gcode
`Tokenizer` (a finite sequence of token results over the decoded
characters) and the gcode `Parser` (a finite sequence of
`Result<Line, Err>` over the surviving tokens). -/
structure Env where
  from_utf8 : List Nat → Option (List Char)
  tokenize : List Char → List (Except Unit Token)
  parse : List Token → List (Except Unit Line)

/-- A Rust panic (out-of-bounds array index). -/
inductive Panic where
  | indexOutOfBounds
deriving DecidableEq

/-- `static LINE_ENDING: u8 = '\n' as u8;` -/
def LINE_ENDING : Nat := 10

/-- The `Printer` struct of the draft.  `motion_dispatched` models the
Motion/Hardware collaborator (fields `motion` and `hardware` in the
source) as the trace of commands forwarded to it. -/
structure Printer where
  gcode_buffer : List (Option Line)
  gcode_buffer_head : Nat
  gcode_buffer_tail : Nat
  immediate_gcode_buffer : List (Option Line)
  immediate_gcode_buffer_head : Nat
  immediate_gcode_buffer_tail : Nat
  serial_buffer : List Nat
  serial_bytes : Nat
  motion_dispatched : List Line
deriving DecidableEq

/-- `Printer::new`. -/
def Printer.new : Printer where
  gcode_buffer := List.replicate 32 none
  gcode_buffer_head := 0
  gcode_buffer_tail := 0
  immediate_gcode_buffer := List.replicate 32 none
  immediate_gcode_buffer_head := 0
  immediate_gcode_buffer_tail := 0
  serial_buffer := List.replicate 256 0
  serial_bytes := 0
  motion_dispatched := []

/-- The `for line in parser` loop of `recive_serial`: an `Ok(line)`
pre-increments `gcode_buffer_head` and writes
`gcode_buffer[gcode_buffer_head]` (panics when the incremented cursor
reaches 32, the array length); an `Err` does nothing. -/
def enqueue_lines : List (Except Unit Line) → Printer → Except Panic Printer
  | [], p => .ok p
  | .ok line :: rest, p =>
      let h := p.gcode_buffer_head + 1
      if h < 32 then
        enqueue_lines rest
          { p with gcode_buffer_head := h,
                   gcode_buffer := p.gcode_buffer.set h (some line) }
      else .error .indexOutOfBounds
  | .error _ :: rest, p => enqueue_lines rest p

/-- The slice `&self.serial_buffer[0..self.serial_bytes]` handed to
`from_utf8`. -/
def lineBytes (p : Printer) : List Nat :=
  p.serial_buffer.take p.serial_bytes

/-- `Printer::recive_serial`.  `byte` is the result of
`serial.try_read_byte()` (`none` = `Err(WouldBlock)`).  A non-terminator
byte under the `serial_bytes < 256` guard pre-increments `serial_bytes`
and writes `serial_buffer[serial_bytes]` (panics when the incremented
counter reaches 256, the array length).  The terminator byte slices
`[0..serial_bytes]`, validates UTF-8, tokenizes dropping token errors
(`filter_map(|t| t.ok())`), parses, enqueues each `Ok` line, and finally
resets `serial_bytes` to 0. -/
def recive_serial (env : Env) (p : Printer) (byte : Option Nat) :
    Except Panic Printer :=
  match byte with
  | none => .ok p
  | some b =>
    if b ≠ LINE_ENDING then
      if p.serial_bytes < 256 then
        let n := p.serial_bytes + 1
        if n < 256 then
          .ok { p with serial_bytes := n,
                       serial_buffer := p.serial_buffer.set n b }
        else .error .indexOutOfBounds
      else .ok p
    else
      if p.serial_bytes ≤ 256 then
        match env.from_utf8 (lineBytes p) with
        | some chars =>
          let tokens := (env.tokenize chars).filterMap Except.toOption
          let results := env.parse tokens
          (enqueue_lines results p).map fun q => { q with serial_bytes := 0 }
        | none => .ok { p with serial_bytes := 0 }
      else .error .indexOutOfBounds

/-- `Printer::update`: the per-tick driver.  The draft's body is exactly
one call to `recive_serial`; no dequeue or dispatch exists. -/
def update (env : Env) (p : Printer) (byte : Option Nat) :
    Except Panic Printer :=
  recive_serial env p byte

/-- Feed a list of bytes one tick at a time, stopping at the first panic. -/
def runBytes (env : Env) : Printer → List Nat → Except Panic Printer
  | p, [] => .ok p
  | p, b :: bs =>
    match recive_serial env p (some b) with
    | .ok q => runBytes env q bs
    | .error e => .error e

/-- The `Ok` lines of a parse-result sequence, in order. -/
def oksOf (rs : List (Except Unit Line)) : List Line :=
  rs.filterMap Except.toOption

/-- Where the enqueue loop places a run of lines: each one at the slot
after the previous pre-incremented cursor. -/
def placeAll : List (Option Line) → Nat → List Line → List (Option Line)
  | buf, _, [] => buf
  | buf, h, l :: ls => placeAll (buf.set (h + 1) (some l)) (h + 1) ls

/-- An environment whose decode collaborator rejects every byte sequence
as invalid UTF-8. -/
def envNone : Env where
  from_utf8 := fun _ => none
  tokenize := fun _ => []
  parse := fun _ => []

/-- An environment whose line decodes to a single `EmergencyStop`. -/
def envEStop : Env where
  from_utf8 := fun _ => some []
  tokenize := fun _ => []
  parse := fun _ => [.ok .emergencyStop]

/-- An environment whose line decodes to 32 `Move` commands. -/
def envMoves32 : Env where
  from_utf8 := fun _ => some []
  tokenize := fun _ => []
  parse := fun _ => List.replicate 32 (.ok (.move (some 1) none none))

/-- An environment whose line decodes to 32 `SetTemperature` successes
followed by one syntax error and one further success. -/
def envTemps : Env where
  from_utf8 := fun _ => some []
  tokenize := fun _ => []
  parse := fun _ =>
    List.replicate 32 (.ok (.setTemperature 200)) ++ [.error (), .ok (.fanSpeed 1)]

/-- An environment whose line decodes to 32 `StatusQuery` successes. -/
def envStatus : Env where
  from_utf8 := fun _ => some []
  tokenize := fun _ => []
  parse := fun _ => List.replicate 32 (.ok .statusQuery)

/-- An environment whose tokenizer yields one error token and one valid
token, and whose parser turns exactly that surviving valid token into a
`FanSpeed` command. -/
def envTok : Env where
  from_utf8 := fun _ => some []
  tokenize := fun _ => [.error (), .ok 7]
  parse := fun ts => if ts = [7] then [.ok (.fanSpeed 3)] else [.error ()]

/-- `env` with the error results deleted from its tokenizer output before
the core ever sees them. -/
def tokErrFiltered (env : Env) : Env :=
  { env with
    tokenize := fun cs =>
      ((env.tokenize cs).filterMap Except.toOption).map Except.ok }

/-- A state whose Immediate buffer holds one pending `EmergencyStop`
(slot 1, head cursor 1, tail cursor 0). -/
def pendingImmediate : Printer :=
  { Printer.new with
      immediate_gcode_buffer :=
        Printer.new.immediate_gcode_buffer.set 1 (some .emergencyStop),
      immediate_gcode_buffer_head := 1 }

/-- A small parse-result sequence: two syntax errors interleaved with two
successes. -/
def rsDemo : List (Except Unit Line) :=
  [.error (), .ok .emergencyStop, .error (), .ok (.move none (some 5) none)]

deriving instance DecidableEq for Except

/-- Deleting the error results of a tokenizer output and re-wrapping the
survivors as successes is invisible to `filter_map(|t| t.ok())`. -/
theorem filterMap_toOption_comp_ok {α : Type} (xs : List α) :
    xs.filterMap (Except.toOption ∘ (Except.ok : α → Except Unit α)) = xs := by
  induction xs with
  | nil => rfl
  | cons x xs ih => simp [List.filterMap_cons, Function.comp, Except.toOption, ih]

/-- The enqueue loop never touches the Immediate buffer, its cursors, or
the motion/hardware collaborator. -/
theorem enqueue_lines_preserves (rs : List (Except Unit Line)) (p q : Printer)
    (h : enqueue_lines rs p = .ok q) :
    q.immediate_gcode_buffer = p.immediate_gcode_buffer ∧
    q.immediate_gcode_buffer_head = p.immediate_gcode_buffer_head ∧
    q.immediate_gcode_buffer_tail = p.immediate_gcode_buffer_tail ∧
    q.motion_dispatched = p.motion_dispatched := by
  induction rs generalizing p with
  | nil => cases h; exact ⟨rfl, rfl, rfl, rfl⟩
  | cons r rest ih =>
    cases r with
    | error e => exact ih p h
    | ok line =>
      rw [show enqueue_lines (.ok line :: rest) p =
            (if p.gcode_buffer_head + 1 < 32 then
              enqueue_lines rest
                { p with gcode_buffer_head := p.gcode_buffer_head + 1,
                         gcode_buffer :=
                           p.gcode_buffer.set (p.gcode_buffer_head + 1) (some line) }
             else .error .indexOutOfBounds) from rfl] at h
      split at h
      · have hq := ih _ h
        exact hq
      · cases h

/-- C1: the per-tick driver `update` only receives serial bytes; whatever
the state and input, it never removes a command from the Immediate buffer
and never forwards anything to the motion/hardware collaborator — in
particular at a state holding a pending Immediate `EmergencyStop`, a tick
leaves that buffer untouched and dispatches nothing, contradicting the
claim that a pending Immediate command is dequeued and forwarded. -/
theorem update_never_dispatches :
    (∀ (env : Env) (p : Printer) (b : Option Nat),
      match update env p b with
      | .ok p' =>
          p'.immediate_gcode_buffer = p.immediate_gcode_buffer ∧
          p'.immediate_gcode_buffer_head = p.immediate_gcode_buffer_head ∧
          p'.immediate_gcode_buffer_tail = p.immediate_gcode_buffer_tail ∧
          p'.motion_dispatched = p.motion_dispatched
      | .error _ => True)
    ∧ update envNone pendingImmediate (some 65) =
        .ok { pendingImmediate with
              serial_bytes := 1,
              serial_buffer := pendingImmediate.serial_buffer.set 1 65 } := by
  constructor
  · intro env p b
    cases hu : update env p b with
    | error e => trivial
    | ok p' =>
      cases b with
      | none => cases hu; exact ⟨rfl, rfl, rfl, rfl⟩
      | some x =>
        unfold update recive_serial at hu
        simp only [] at hu
        by_cases hx : x ≠ LINE_ENDING
        · rw [if_pos hx] at hu
          split at hu
          · split at hu
            · cases hu; exact ⟨rfl, rfl, rfl, rfl⟩
            · cases hu
          · cases hu; exact ⟨rfl, rfl, rfl, rfl⟩
        · rw [if_neg hx] at hu
          split at hu
          · split at hu
            · rename_i chars heq
              cases henq : enqueue_lines
                  (env.parse ((env.tokenize chars).filterMap Except.toOption)) p with
              | ok q =>
                rw [henq] at hu
                simp [Except.map] at hu
                subst hu
                have hq := enqueue_lines_preserves _ _ _ henq
                exact hq
              | error e => rw [henq] at hu; simp [Except.map] at hu
            · cases hu; exact ⟨rfl, rfl, rfl, rfl⟩
          · cases hu
  · decide

/-- C2: a single line that parses to 32 commands, received from the
initial state, makes the core panic: each `Ok` pre-increments the head
cursor and writes `gcode_buffer[head]` without any capacity check, so the
32nd success indexes slot 32 of the 32-slot array; no `BufferFull`
rejection exists anywhere on this path. -/
theorem thirty_two_enqueues_panic :
    recive_serial envMoves32 Printer.new (some LINE_ENDING) =
      .error .indexOutOfBounds := by decide

/-- C3: feeding 256 non-terminator bytes from the initial state panics:
the 256th byte passes the `serial_bytes < 256` guard with
`serial_bytes = 255`, the counter is pre-incremented to 256, and the
write `serial_buffer[256]` is one past the end of the 256-byte array. -/
theorem serial_overflow_panics :
    runBytes envNone Printer.new (List.replicate 256 65) =
      .error .indexOutOfBounds := by decide

/-- C4: a line that parses to `EmergencyStop` is enqueued into the Queued
`gcode_buffer` (slot 1, head cursor 1), while the Immediate buffer and
its cursors stay in their initial empty state — there is no classifier,
every parsed command takes the same path. -/
theorem estop_enqueued_to_queued_buffer :
    recive_serial envEStop Printer.new (some LINE_ENDING) =
      .ok { Printer.new with
            gcode_buffer_head := 1,
            gcode_buffer := Printer.new.gcode_buffer.set 1 (some .emergencyStop) } := by
  decide

/-- C5: the receive path does not append: from the empty state the first
byte lands in slot 1 with slot 0 untouched, and at a length counter of
255 — one byte of the 256-byte buffer still unused — the next byte is not
stored at all: the core panics on the write to `serial_buffer[256]`. -/
theorem byte_not_appended :
    recive_serial envNone Printer.new (some 65) =
      .ok { Printer.new with
            serial_bytes := 1,
            serial_buffer := Printer.new.serial_buffer.set 1 65 }
    ∧ recive_serial envNone { Printer.new with serial_bytes := 255 } (some 66) =
        .error .indexOutOfBounds := by
  constructor
  · decide
  · decide

/-- C6: on a completed line whose retained bytes fail UTF-8 validation,
the call returns normally and the resulting state is the input state with
only `serial_bytes` reset to 0 — zero commands are produced and neither
command buffer, cursor, nor the dispatch trace is modified. -/
theorem recive_serial_invalid_utf8 (env : Env) (p : Printer)
    (hlen : p.serial_bytes ≤ 256)
    (hdec : env.from_utf8 (lineBytes p) = none) :
    recive_serial env p (some LINE_ENDING) = .ok { p with serial_bytes := 0 } := by
  unfold recive_serial
  simp [hlen, hdec]

/-- C6 witness: the invalid-UTF-8 theorem applied at the initial state
under a decoder that rejects every byte sequence. -/
theorem recive_serial_invalid_utf8_witness :
    Printer.new.serial_bytes ≤ 256 ∧
    envNone.from_utf8 (lineBytes Printer.new) = none ∧
    recive_serial envNone Printer.new (some LINE_ENDING) =
      .ok { Printer.new with serial_bytes := 0 } :=
  ⟨by decide, rfl, recive_serial_invalid_utf8 envNone Printer.new (by decide) rfl⟩

/-- C7 counterexample: a line parsing to 32 successes, one syntax error
and one further success aborts with a panic at the 32nd success, so the
trailing success is never processed and never enqueued: not every
successful parse result of the line yields an enqueued command. -/
theorem late_fragment_lost_after_overflow :
    recive_serial envTemps Printer.new (some LINE_ENDING) =
      .error .indexOutOfBounds := by decide

/-- C7 amended: as long as the pre-incremented write cursor stays inside
the 32-slot array, the enqueue loop skips exactly the error fragments —
the outcome is a normal return whose Queued buffer holds the `Ok` lines
of the sequence, in order, one slot per success, and whose head cursor
advances by the number of successes. -/
theorem enqueue_lines_isolates_errors (rs : List (Except Unit Line)) (p : Printer)
    (h : p.gcode_buffer_head + (oksOf rs).length < 32) :
    enqueue_lines rs p =
      .ok { p with
            gcode_buffer_head := p.gcode_buffer_head + (oksOf rs).length,
            gcode_buffer := placeAll p.gcode_buffer p.gcode_buffer_head (oksOf rs) } := by
  induction rs generalizing p with
  | nil =>
    simp [enqueue_lines, oksOf, placeAll, List.filterMap]
  | cons r rest ih =>
    cases r with
    | error e =>
      have hoks : oksOf (.error e :: rest) = oksOf rest := by
        simp [oksOf, List.filterMap_cons, Except.toOption]
      rw [hoks] at h ⊢
      rw [show enqueue_lines (.error e :: rest) p = enqueue_lines rest p from rfl]
      exact ih p h
    | ok line =>
      have hoks : oksOf (.ok line :: rest) = line :: oksOf rest := by
        simp [oksOf, List.filterMap_cons, Except.toOption]
      rw [hoks] at h ⊢
      have hlt : p.gcode_buffer_head + 1 < 32 := by
        simp only [List.length_cons] at h; omega
      rw [show enqueue_lines (.ok line :: rest) p =
            (if p.gcode_buffer_head + 1 < 32 then
              enqueue_lines rest
                { p with gcode_buffer_head := p.gcode_buffer_head + 1,
                         gcode_buffer :=
                           p.gcode_buffer.set (p.gcode_buffer_head + 1) (some line) }
             else .error .indexOutOfBounds) from rfl]
      rw [if_pos hlt]
      rw [ih _ (by simp only [List.length_cons] at h; simp; omega)]
      simp only [Except.ok.injEq]
      have harith : p.gcode_buffer_head + 1 + (oksOf rest).length
          = p.gcode_buffer_head + (line :: oksOf rest).length := by
        simp [List.length_cons]; omega
      rw [show placeAll p.gcode_buffer p.gcode_buffer_head (line :: oksOf rest)
            = placeAll (p.gcode_buffer.set (p.gcode_buffer_head + 1) (some line))
                (p.gcode_buffer_head + 1) (oksOf rest) from rfl]
      rw [harith]

/-- C7 witness: the error-isolation theorem applied to a four-fragment
sequence with two syntax errors from the initial state. -/
theorem enqueue_lines_isolates_errors_witness :
    Printer.new.gcode_buffer_head + (oksOf rsDemo).length < 32 ∧
    enqueue_lines rsDemo Printer.new =
      .ok { Printer.new with
            gcode_buffer_head := Printer.new.gcode_buffer_head + (oksOf rsDemo).length,
            gcode_buffer :=
              placeAll Printer.new.gcode_buffer Printer.new.gcode_buffer_head
                (oksOf rsDemo) } :=
  ⟨by decide, enqueue_lines_isolates_errors rsDemo Printer.new (by decide)⟩

/-- C8 counterexample: a completed line whose decode succeeds with 32
parsed commands panics inside the enqueue loop, so the call never reaches
the `serial_bytes = 0` reset — the line terminator was observed, decoding
succeeded, yet no state with a reset counter exists. -/
theorem reset_skipped_on_panic :
    recive_serial envStatus Printer.new (some LINE_ENDING) =
      .error .indexOutOfBounds := by decide

/-- C8 amended: whenever a tick that received the line terminator returns
normally — decode success with in-bounds enqueues, UTF-8 failure, or
syntax errors alike — the resulting length counter is zero. -/
theorem serial_bytes_reset_on_return (env : Env) (p p' : Printer)
    (h : recive_serial env p (some LINE_ENDING) = .ok p') :
    p'.serial_bytes = 0 := by
  unfold recive_serial at h
  simp only [ne_eq, not_true_eq_false, if_false, reduceIte] at h
  split at h
  · split at h
    · rename_i chars heq
      cases henq : enqueue_lines (env.parse ((env.tokenize chars).filterMap Except.toOption)) p with
      | ok q => rw [henq] at h; simp [Except.map] at h; subst h; rfl
      | error e => rw [henq] at h; simp [Except.map] at h
    · cases h; rfl
  · cases h

/-- C8 witness: the reset theorem applied to a terminator tick from the
initial state under the rejecting decoder. -/
theorem serial_bytes_reset_on_return_witness :
    recive_serial envNone Printer.new (some LINE_ENDING) =
      .ok { Printer.new with serial_bytes := 0 } ∧
    ({ Printer.new with serial_bytes := 0 } : Printer).serial_bytes = 0 :=
  ⟨by decide,
   serial_bytes_reset_on_return envNone Printer.new
     { Printer.new with serial_bytes := 0 } (by decide)⟩

/-- C9: a stored non-terminator byte goes through a pre-incremented
counter into slot `serial_bytes + 1`; the slice handed to the decoder is
`[0..serial_bytes]`, whose first byte is the untouched slot 0 and whose
last covered position `serial_bytes` still holds the buffer's previous
content — the just-stored byte at `serial_bytes + 1` lies outside it. -/
theorem recive_serial_off_by_one (env : Env) (p : Printer) (b : Nat)
    (hb : b ≠ LINE_ENDING) (hcap : p.serial_bytes + 1 < 256) :
    recive_serial env p (some b) =
      .ok { p with
            serial_bytes := p.serial_bytes + 1,
            serial_buffer := p.serial_buffer.set (p.serial_bytes + 1) b }
    ∧ lineBytes { p with
            serial_bytes := p.serial_bytes + 1,
            serial_buffer := p.serial_buffer.set (p.serial_bytes + 1) b }
        = (p.serial_buffer.set (p.serial_bytes + 1) b).take (p.serial_bytes + 1)
    ∧ ((p.serial_buffer.set (p.serial_bytes + 1) b).take (p.serial_bytes + 1)).head?
        = p.serial_buffer.head?
    ∧ ((p.serial_buffer.set (p.serial_bytes + 1) b).take (p.serial_bytes + 1)).getD
          p.serial_bytes 0
        = p.serial_buffer.getD p.serial_bytes 0 := by
  refine ⟨?_, rfl, ?_, ?_⟩
  · unfold recive_serial
    simp [hb, Nat.lt_of_succ_lt hcap, hcap]
  · rw [List.head?_eq_getElem?, List.head?_eq_getElem?, List.getElem?_take]
    rw [if_pos (Nat.succ_pos _), List.getElem?_set_ne (Nat.succ_ne_zero _)]
  · rw [List.getD_eq_getElem?_getD, List.getD_eq_getElem?_getD, List.getElem?_take]
    rw [if_pos (Nat.lt_succ_self _), List.getElem?_set_ne (Nat.succ_ne_self _)]

/-- C9 witness: the off-by-one theorem applied to byte 66 at the initial
state. -/
theorem recive_serial_off_by_one_witness :
    recive_serial envTok Printer.new (some 66) =
      .ok { Printer.new with
            serial_bytes := Printer.new.serial_bytes + 1,
            serial_buffer :=
              Printer.new.serial_buffer.set (Printer.new.serial_bytes + 1) 66 } :=
  (recive_serial_off_by_one envTok Printer.new 66 (by decide) (by decide)).1

/-- C10: deleting the tokenizer's error results before the core sees them
changes nothing — `filter_map(|t| t.ok())` already silently discards
them — and a line whose tokenizer output contains an invalid token still
yields the command parsed from its surviving valid token. -/
theorem tokenizer_errors_discarded :
    (∀ (env : Env) (p : Printer) (b : Option Nat),
        recive_serial (tokErrFiltered env) p b = recive_serial env p b)
    ∧ recive_serial envTok Printer.new (some LINE_ENDING) =
        .ok { Printer.new with
              gcode_buffer_head := 1,
              gcode_buffer := Printer.new.gcode_buffer.set 1 (some (.fanSpeed 3)) } := by
  constructor
  · intro env p b
    cases b with
    | none => rfl
    | some x =>
      unfold recive_serial tokErrFiltered
      by_cases hx : x ≠ LINE_ENDING
      · simp [hx]
      · simp only [ne_eq, not_not] at hx
        subst hx
        simp only [ne_eq, not_true_eq_false, if_false, reduceIte]
        split
        · cases henv : env.from_utf8 (lineBytes p) with
          | none => simp [henv]
          | some chars => simp [henv, filterMap_toOption_comp_ok]
        · rfl
  · decide
